import Mathlib

/-!
Shallow embedding of `tsfc/kernel_args.py`, the kernel-argument metadata layer of
the TSFC form compiler: the element-shape adapter, the argument descriptors with
their flat-buffer signature records, and the output-expression builders, together
with theorems settling the specification claims about them.

Machine conventions: shapes are tuples of non-negative integers, modelled as
`List Nat`; `np.prod(..., dtype=int)` is modelled as the exact product (the
well-formed shapes this layer receives are far below the int64 range); Python
exceptions are modelled with `Except PyErr`.
-/

deriving instance DecidableEq for Except

/-- Python exception classes raised by the code paths modelled here. -/
inductive PyErr where
  | nameError
  | valueError
  | assertionError
deriving DecidableEq, Repr

/-- A Python value that may appear in the list passed to `np.prod` in this module:
either an integer or a tuple of integers. -/
inductive PyVal where
  | int (n : Nat)
  | tup (t : List Nat)
deriving DecidableEq, Repr

/-- Whether a `PyVal` is an integer. -/
def PyVal.isInt : PyVal → Bool
  | .int _ => true
  | .tup _ => false

/-- Model of `np.prod(xs, dtype=int)` as applied in this module: on a homogeneous
list of integers it returns their product (empty product 1).  A list mixing a
tuple with integers is ragged, so numpy raises (array construction rejects the
inhomogeneous shape, or the object-array reduction fails to cast a tuple to
`int`); only the mixed form ever occurs here on a non-integer list. -/
def npProd (xs : List PyVal) : Except PyErr Nat :=
  if xs.all PyVal.isInt then
    .ok (xs.foldl (fun acc v => match v with | .int n => acc * n | .tup _ => acc) 1)
  else
    .error .valueError

/-- Python list slicing `l[:-n]` for a non-negative `n`: for `n ≥ 1` it drops the
last `n` elements (empty result when `n ≥ len l`); for `n = 0` it is `l[:0] = []`,
because `-0 == 0` in Python. -/
def pyDropLast (l : List Nat) (n : Nat) : List Nat :=
  if n = 0 then [] else l.take (l.length - n)

/-- The slice of a FInAT finite-element description visible to this module: its
`index_shape` attribute, whether it is an instance of `finat.TensorFiniteElement`,
and — for tensor elements — its `_shape` attribute (`elem_shape` here), the
declared block shape. -/
structure FinatElement where
  index_shape : List Nat
  is_tensor : Bool
  elem_shape : List Nat
deriving DecidableEq, Repr

/-- The flat-buffer signature record `lp.GlobalArg(name, dtype, shape, ...)` handed
to the code-generation backend.  A scalar integer `shape` argument denotes the
corresponding 1-tuple and is normalised to it; `is_output` is `none` when the call
site does not pass the keyword (loopy then infers the flag later). -/
structure GlobalArg where
  name : String
  dtype : String
  shape : List Nat
  is_output : Option Bool
deriving DecidableEq, Repr

/-- Argument intent (`Intent.IN` / `Intent.OUT`). -/
inductive Intent where
  | IN
  | OUT
deriving DecidableEq, Repr

namespace ElementHandler

/-- `_ElementHandler._is_tensor_element`: the wrapped element is a tensor element
iff it is an instance of `finat.TensorFiniteElement`. -/
def is_tensor_element (e : FinatElement) : Bool := e.is_tensor

/-- `_ElementHandler.tensor_shape`: the element's `_shape` for tensor elements,
`(1,)` otherwise. -/
def tensor_shape (e : FinatElement) : List Nat :=
  if is_tensor_element e then e.elem_shape else [1]

/-- `_ElementHandler.node_shape`: `np.prod(index_shape[:-len(tensor_shape)])` for
tensor elements, `np.prod(index_shape)` otherwise. -/
def node_shape (e : FinatElement) : Nat :=
  (if is_tensor_element e then pyDropLast e.index_shape (tensor_shape e).length
   else e.index_shape).prod

end ElementHandler

/-- The node-shape formula as the specification words it: the integer product of
the element's index-shape dimensions, excluding the trailing `len(tensor_shape)`
dimensions when the element is a tensor element and excluding none otherwise —
that is, mathematical removal of the last `len(tensor_shape)` entries (in
particular, an empty block shape excludes nothing). -/
def spec_node_shape (e : FinatElement) : Nat :=
  (if ElementHandler.is_tensor_element e then
      e.index_shape.take (e.index_shape.length - (ElementHandler.tensor_shape e).length)
    else e.index_shape).prod

theorem npProd_foldl_int (l : List Nat) (a : Nat) :
    (l.map PyVal.int).foldl
      (fun acc v => match v with | .int n => acc * n | .tup _ => acc) a = a * l.prod := by
  induction l generalizing a with
  | nil => simp
  | cons x xs ih =>
      simp only [List.map_cons, List.foldl_cons, List.prod_cons, ih, Nat.mul_assoc]

/-- Evaluation of `np.prod` on an integer node-shape consed onto an integer
shape tuple: the product of all entries. -/
theorem npProd_int_cons (n : Nat) (l : List Nat) :
    npProd (PyVal.int n :: l.map PyVal.int) = Except.ok (n * l.prod) := by
  have hall : (PyVal.int n :: l.map PyVal.int).all PyVal.isInt = true := by
    simp only [List.all_cons, List.all_map, Bool.and_eq_true]
    exact ⟨rfl, by simp [List.all_eq_true, PyVal.isInt, Function.comp]⟩
  simp only [npProd, hall, if_true, List.foldl_cons]
  rw [npProd_foldl_int]
  simp

namespace CoordinatesKernelArg

def name : String := "coords"

def intent : Intent := .IN

/-- `CoordinatesKernelArg.shape = self._elem.tensor_shape`. -/
def shape (elem : FinatElement) : List Nat := ElementHandler.tensor_shape elem

/-- `CoordinatesKernelArg.node_shape`: the adapter node shape, doubled for
interior facets. -/
def node_shape (elem : FinatElement) (interior_facet : Bool) : Nat :=
  let shape := ElementHandler.node_shape elem
  if interior_facet then 2 * shape else shape

/-- `CoordinatesKernelArg.loopy_arg`:
`lp.GlobalArg(name, dtype, shape=np.prod([node_shape, *shape], dtype=int))`. -/
def loopy_arg (elem : FinatElement) (dtype : String) (interior_facet : Bool) :
    Except PyErr GlobalArg := do
  let s ← npProd (.int (node_shape elem interior_facet) :: (shape elem).map .int)
  return ⟨name, dtype, [s], none⟩

end CoordinatesKernelArg

namespace ConstantKernelArg

def intent : Intent := .IN

/-- `ConstantKernelArg.loopy_arg`: `lp.GlobalArg(name, dtype, shape=shape)` with
the caller-given tuple. -/
def loopy_arg (name : String) (shape : List Nat) (dtype : String) : GlobalArg :=
  ⟨name, dtype, shape, none⟩

end ConstantKernelArg

namespace CoefficientKernelArg

def intent : Intent := .IN

/-- `CoefficientKernelArg.shape = self._elem.tensor_shape`. -/
def shape (elem : FinatElement) : List Nat := ElementHandler.tensor_shape elem

/-- `CoefficientKernelArg.node_shape`: the adapter node shape, doubled for
interior facets. -/
def node_shape (elem : FinatElement) (interior_facet : Bool) : Nat :=
  let shape := ElementHandler.node_shape elem
  if interior_facet then 2 * shape else shape

/-- `CoefficientKernelArg.loopy_arg`:
`lp.GlobalArg(name, dtype, shape=np.prod([node_shape, *shape], dtype=int))`. -/
def loopy_arg (name : String) (elem : FinatElement) (dtype : String)
    (interior_facet : Bool) : Except PyErr GlobalArg := do
  let s ← npProd (.int (node_shape elem interior_facet) :: (shape elem).map .int)
  return ⟨name, dtype, [s], none⟩

end CoefficientKernelArg

namespace CellOrientationsKernelArg

def name : String := "cell_orientations"

def dtype : String := "int32"

def intent : Intent := .IN

/-- `CellOrientationsKernelArg.shape`: `(2,)` for interior facets, else `(1,)`. -/
def shape (interior_facet : Bool) : List Nat := if interior_facet then [2] else [1]

/-- `CellOrientationsKernelArg.node_shape` returns the tuple `(1,)` — not an
integer, unlike every other rank-one descriptor. -/
def node_shape : List Nat := [1]

/-- `CellOrientationsKernelArg.loopy_arg` computes
`np.prod([self.node_shape, *self.shape], dtype=int)`, whose argument list mixes
the tuple `node_shape` with the integer entries of `shape`. -/
def loopy_arg (interior_facet : Bool) : Except PyErr GlobalArg := do
  let s ← npProd (.tup node_shape :: (shape interior_facet).map .int)
  return ⟨name, dtype, [s], none⟩

end CellOrientationsKernelArg

/-- The module-level binding for the name `_is_tensor_element`, looked up by
`CellSizesKernelArg.shape` and `CellSizesKernelArg.node_shape` (which use the
raw element, not `_ElementHandler`).  `kernel_args.py` neither defines a
module-level `_is_tensor_element` nor imports one (its imports are `abc`,
`enum`, `itertools`, `finat`, `gem`, `remove_componenttensors`, `loopy`,
`numpy`; the only `_is_tensor_element` in the file is a property of
`_ElementHandler`, invisible to a plain-name lookup), so the lookup fails and
Python raises `NameError` at the call site. -/
def module_is_tensor_element : Option (FinatElement → Bool) := none

namespace CellSizesKernelArg

def name : String := "cell_sizes"

def intent : Intent := .IN

/-- `CellSizesKernelArg.shape`: `self._elem._shape` if
`_is_tensor_element(self._elem)` else `(1,)`; the call to the unbound name
raises before either branch is taken. -/
def shape (elem : FinatElement) : Except PyErr (List Nat) :=
  match module_is_tensor_element with
  | none => .error .nameError
  | some p => .ok (if p elem then elem.elem_shape else [1])

/-- `CellSizesKernelArg.node_shape`: product of `index_shape[:-len(self.shape)]`
(tensor case) or of the full `index_shape`, doubled for interior facets; again
the `_is_tensor_element` call raises first. -/
def node_shape (elem : FinatElement) (interior_facet : Bool) : Except PyErr Nat :=
  match module_is_tensor_element with
  | none => .error .nameError
  | some p => do
      let sh ← shape elem
      let s := if p elem then pyDropLast elem.index_shape sh.length
               else elem.index_shape
      let s := s.prod
      return if interior_facet then 2 * s else s

/-- `CellSizesKernelArg.loopy_arg`:
`lp.GlobalArg(name, dtype, shape=np.prod([node_shape, *shape], dtype=int))`. -/
def loopy_arg (elem : FinatElement) (dtype : String) (interior_facet : Bool) :
    Except PyErr GlobalArg := do
  let ns ← node_shape elem interior_facet
  let sh ← shape elem
  let s ← npProd (.int ns :: sh.map .int)
  return ⟨name, dtype, [s], none⟩

end CellSizesKernelArg

namespace FacetKernelArg

def name : String := "facet"

def intent : Intent := .IN

def dtype : String := "uint32"

/-- `FacetKernelArg.node_shape` is the tuple `(1,)`. -/
def node_shape : List Nat := [1]

/-- `FacetKernelArg.loopy_arg`: `lp.GlobalArg(name, dtype, shape=self.shape)` —
the per-subclass shape tuple is passed through directly. -/
def loopy_arg (shape : List Nat) : GlobalArg := ⟨name, dtype, shape, none⟩

end FacetKernelArg

namespace ExteriorFacetKernelArg

def shape : List Nat := [1]

def loopy_arg : GlobalArg := FacetKernelArg.loopy_arg shape

end ExteriorFacetKernelArg

namespace InteriorFacetKernelArg

def shape : List Nat := [2]

def loopy_arg : GlobalArg := FacetKernelArg.loopy_arg shape

end InteriorFacetKernelArg

namespace DualEvalVectorOutputKernelArg

def name : String := "A"

def intent : Intent := .OUT

def shape : List Nat := [1]

/-- `DualEvalVectorOutputKernelArg.loopy_arg`:
`lp.GlobalArg(name, dtype, shape=node_shape)` — `is_output` is not passed. -/
def loopy_arg (node_shape : Nat) (dtype : String) : GlobalArg :=
  ⟨name, dtype, [node_shape], none⟩

end DualEvalVectorOutputKernelArg

namespace DualEvalMatrixOutputKernelArg

def name : String := "A"

def intent : Intent := .OUT

def rshape : List Nat := [1]

def cshape : List Nat := [1]

/-- `DualEvalMatrixOutputKernelArg.loopy_arg`:
`lp.GlobalArg(name, dtype, shape=(rnode_shape, cnode_shape))` — `is_output` is
not passed. -/
def loopy_arg (rnode_shape cnode_shape : Nat) (dtype : String) : GlobalArg :=
  ⟨name, dtype, [rnode_shape, cnode_shape], none⟩

end DualEvalMatrixOutputKernelArg

/-- A Python `slice` object as constructed here: `slice(stop)` carries no explicit
start, `slice(start, stop)` carries one.  (Step arguments never occur.) -/
structure PySlice where
  start : Option Nat
  stop : Nat
deriving DecidableEq, Repr

/-- Symbolic tensor expressions: the fragment of the `gem` expression language
this module constructs — `gem.Variable(name, shape)`, `gem.view(base, *slices)`,
`gem.reshape(base, *shapes)` (one target shape per axis group, in order), and
`gem.Indexed(base, multiindex)`. -/
inductive GemExpr where
  | var (name : String) (shape : List Nat)
  | view (base : GemExpr) (slices : List PySlice)
  | reshape (base : GemExpr) (shapes : List (List Nat))
  | indexed (base : GemExpr) (multiindex : List Nat)
deriving DecidableEq, Repr

/-- Modelled from the spec: `gem.optimise.remove_componenttensors` (code of the
`gem` package of this repository, outside `src/`) is the "simplification pass
that eliminates redundant tensor-view wrapping"; per the spec it returns one
expression per restriction combination, "in the enumeration order produced" by
the slicing step, so it preserves the number and order of the expressions and
the buffer region each one addresses.  On this symbolic term representation we
model it as the identity. -/
def prune (exprs : List GemExpr) : List GemExpr := exprs

namespace ScalarOutputKernelArg

def name : String := "A"

def intent : Intent := .OUT

def shape : List Nat := [1]

/-- `ScalarOutputKernelArg.loopy_arg`:
`lp.GlobalArg(name, dtype, shape=self.shape, is_output=True)`. -/
def loopy_arg (dtype : String) : GlobalArg := ⟨name, dtype, shape, some true⟩

/-- `ScalarOutputKernelArg.make_gem_exprs`: asserts the multiindex list is
empty, then returns `[gem.Indexed(gem.Variable(name, shape), (0,))]`. -/
def make_gem_exprs (multiindices : List (List Nat)) :
    Except PyErr (List GemExpr) :=
  if multiindices.length = 0 then
    .ok [.indexed (.var name shape) [0]]
  else
    .error .assertionError

end ScalarOutputKernelArg

namespace VectorOutputKernelArg

def name : String := "A"

def intent : Intent := .OUT

/-- `VectorOutputKernelArg.shape = self._elem.tensor_shape`. -/
def shape (elem : FinatElement) : List Nat := ElementHandler.tensor_shape elem

/-- `VectorOutputKernelArg.node_shape`: the adapter node shape, doubled for
interior facets. -/
def node_shape (elem : FinatElement) (interior_facet : Bool) : Nat :=
  let shape := ElementHandler.node_shape elem
  if interior_facet then 2 * shape else shape

/-- `VectorOutputKernelArg.loopy_arg`:
`lp.GlobalArg(name, dtype, shape=np.prod([node_shape, *shape], dtype=int))` —
`is_output` is not passed. -/
def loopy_arg (elem : FinatElement) (dtype : String) (interior_facet : Bool) :
    Except PyErr GlobalArg := do
  let s ← npProd (.int (node_shape elem interior_facet) :: (shape elem).map .int)
  return ⟨name, dtype, [s], none⟩

/-- `VectorOutputKernelArg._make_expression`: reshape the restricted view to the
raw element's `index_shape` and index it with `itertools.chain(*multiindices)`. -/
def make_expression (elem : FinatElement) (restricted : GemExpr)
    (multiindices : List (List Nat)) : GemExpr :=
  .indexed (.reshape restricted [elem.index_shape]) multiindices.flatten

/-- `VectorOutputKernelArg.make_gem_exprs`: `u_shape` is the product of the raw
element's full `index_shape`; `c_shape` doubles it for interior facets; for the
diagonal variant only `multiindices[:1]` is kept; the slice list enumerates
restrictions `(0,)` then `(1,)` (interior facet) or the single full range, and
the results are passed through `remove_componenttensors`. -/
def make_gem_exprs (elem : FinatElement) (interior_facet diagonal : Bool)
    (multiindices : List (List Nat)) : List GemExpr :=
  let u_shape : List Nat := [elem.index_shape.prod]
  let c_shape : List Nat := if interior_facet then u_shape.map (2 * ·) else u_shape
  let multiindices := if diagonal then multiindices.take 1 else multiindices
  let slicez : List (List PySlice) :=
    if interior_facet then
      ([[0], [1]] : List (List Nat)).map (fun restrictions =>
        (restrictions.zip u_shape).map (fun rs =>
          ⟨some (rs.1 * rs.2), (rs.1 + 1) * rs.2⟩))
    else
      [u_shape.map (fun s => ⟨none, s⟩)]
  let v := GemExpr.var name c_shape
  prune (slicez.map (fun slices => make_expression elem (.view v slices) multiindices))

end VectorOutputKernelArg

namespace MatrixOutputKernelArg

def name : String := "A"

def intent : Intent := .OUT

/-- `MatrixOutputKernelArg.rshape = self._relem.tensor_shape`. -/
def rshape (relem : FinatElement) : List Nat := ElementHandler.tensor_shape relem

/-- `MatrixOutputKernelArg.cshape = self._celem.tensor_shape`. -/
def cshape (celem : FinatElement) : List Nat := ElementHandler.tensor_shape celem

/-- `MatrixOutputKernelArg.rnode_shape`: the row adapter node shape, doubled for
interior facets. -/
def rnode_shape (relem : FinatElement) (interior_facet : Bool) : Nat :=
  let shape := ElementHandler.node_shape relem
  if interior_facet then 2 * shape else shape

/-- `MatrixOutputKernelArg.cnode_shape`: the column adapter node shape, doubled
for interior facets. -/
def cnode_shape (celem : FinatElement) (interior_facet : Bool) : Nat :=
  let shape := ElementHandler.node_shape celem
  if interior_facet then 2 * shape else shape

/-- `MatrixOutputKernelArg.loopy_arg`: both local bindings are
`np.prod([self.rnode_shape, *self.cshape], dtype=int)` — the second repeats the
first, so `cnode_shape` and `rshape` are never read here — and the result is
`lp.GlobalArg(name, dtype, shape=(rshape, cshape))` without `is_output`. -/
def loopy_arg (relem celem : FinatElement) (dtype : String)
    (interior_facet : Bool) : Except PyErr GlobalArg := do
  let r ← npProd (.int (rnode_shape relem interior_facet) :: (cshape celem).map .int)
  let c ← npProd (.int (rnode_shape relem interior_facet) :: (cshape celem).map .int)
  return ⟨name, dtype, [r, c], none⟩

/-- `MatrixOutputKernelArg._make_expression`: reshape the restricted view to the
row and column raw `index_shape`s and index it with
`itertools.chain(*multiindices)`. -/
def make_expression (relem celem : FinatElement) (restricted : GemExpr)
    (multiindices : List (List Nat)) : GemExpr :=
  .indexed (.reshape restricted [relem.index_shape, celem.index_shape])
    multiindices.flatten

/-- `MatrixOutputKernelArg.make_gem_exprs`: `u_shape` holds the full index-shape
products of the row and column elements; `c_shape` doubles both for interior
facets; the slice list enumerates `itertools.product((0, 1), repeat=2)` — in
order (0,0), (0,1), (1,0), (1,1) — or the single full range, and the results
are passed through `remove_componenttensors`. -/
def make_gem_exprs (relem celem : FinatElement) (interior_facet : Bool)
    (multiindices : List (List Nat)) : List GemExpr :=
  let u_shape : List Nat := [relem.index_shape.prod, celem.index_shape.prod]
  let c_shape : List Nat := if interior_facet then u_shape.map (2 * ·) else u_shape
  let slicez : List (List PySlice) :=
    if interior_facet then
      (([0, 1] : List Nat).flatMap (fun a => ([0, 1] : List Nat).map (fun b => [a, b]))).map
        (fun restrictions =>
          (restrictions.zip u_shape).map (fun rs =>
            ⟨some (rs.1 * rs.2), (rs.1 + 1) * rs.2⟩))
    else
      [u_shape.map (fun s => ⟨none, s⟩)]
  let v := GemExpr.var name c_shape
  prune (slicez.map (fun slices =>
    make_expression relem celem (.view v slices) multiindices))

end MatrixOutputKernelArg

/-- The slice list of the view node inside an output expression. -/
def viewSlicesOf : GemExpr → List PySlice
  | .var _ _ => []
  | .view _ s => s
  | .reshape b _ => viewSlicesOf b
  | .indexed b _ => viewSlicesOf b

/-- The shape of the underlying buffer variable of an expression. -/
def baseVarShape : GemExpr → Option (List Nat)
  | .var _ s => some s
  | .view b _ => baseVarShape b
  | .reshape b _ => baseVarShape b
  | .indexed b _ => baseVarShape b

/-- The multiindex of the outermost `Indexed` node, if any. -/
def topMultiindex : GemExpr → Option (List Nat)
  | .indexed _ ix => some ix
  | _ => none

/-- When a tensor element's non-empty declared block shape forms the trailing
dimensions of its index shape (plain elements satisfy the premise vacuously),
the adapter factorisation is exact: node shape times the tensor-shape product
recovers the full index-shape product. -/
theorem ElementHandler.node_shape_mul_tensor_prod (e : FinatElement)
    (h : e.is_tensor = true →
      e.elem_shape ≠ [] ∧ e.elem_shape.IsSuffix e.index_shape) :
    ElementHandler.node_shape e * (ElementHandler.tensor_shape e).prod =
      e.index_shape.prod := by
  by_cases ht : e.is_tensor = true
  · obtain ⟨hne, t, hsuf⟩ := h ht
    have hk : e.elem_shape.length ≠ 0 := by
      simpa [List.length_eq_zero] using hne
    simp only [ElementHandler.node_shape, ElementHandler.tensor_shape,
      ElementHandler.is_tensor_element, ht, if_true]
    rw [← hsuf]
    simp [pyDropLast, hk, List.length_append, Nat.add_sub_cancel,
      List.take_left, List.prod_append]
  · simp [ElementHandler.node_shape, ElementHandler.tensor_shape,
      ElementHandler.is_tensor_element, ht]

/-- C1: the claim says reading the cell-sizes argument's `shape` and
`node_shape` succeeds without raising for every well-formed element and either
`interior_facet` value; in the code both properties call the unbound
module-level name `_is_tensor_element` and raise `NameError` on every element,
shown here on a plain 3-node element and on a well-formed tensor element. -/
theorem C1_cell_sizes_accessors_raise :
    CellSizesKernelArg.shape ⟨[3], false, []⟩ = .error .nameError ∧
    CellSizesKernelArg.node_shape ⟨[3], false, []⟩ false = .error .nameError ∧
    CellSizesKernelArg.node_shape ⟨[3], false, []⟩ true = .error .nameError ∧
    CellSizesKernelArg.shape ⟨[4, 2], true, [2]⟩ = .error .nameError ∧
    CellSizesKernelArg.node_shape ⟨[4, 2], true, [2]⟩ true = .error .nameError := by
  decide

/-- C2: for every matrix output argument, both axis lengths of the flat-buffer
descriptor equal `rnode_shape * product(cshape)` — hence the two axis lengths
are always equal, and `cnode_shape` and `rshape` are never incorporated. -/
theorem C2_matrix_loopy_axes (relem celem : FinatElement) (dtype : String)
    (interior_facet : Bool) :
    MatrixOutputKernelArg.loopy_arg relem celem dtype interior_facet =
      Except.ok ⟨MatrixOutputKernelArg.name, dtype,
        [MatrixOutputKernelArg.rnode_shape relem interior_facet *
            (MatrixOutputKernelArg.cshape celem).prod,
         MatrixOutputKernelArg.rnode_shape relem interior_facet *
            (MatrixOutputKernelArg.cshape celem).prod], none⟩ := by
  simp [MatrixOutputKernelArg.loopy_arg, npProd_int_cons, Bind.bind, Except.bind, Pure.pure, Except.pure]

/-- C3 counterexample: the claim says every output-role flat-buffer descriptor
is flagged with `is_output=True`; the vector-output descriptor over a concrete
plain 3-node element never passes the flag. -/
theorem C3_vector_output_not_flagged :
    Except.map GlobalArg.is_output
        (VectorOutputKernelArg.loopy_arg ⟨[3], false, []⟩ "float64" false) ≠
      Except.ok (some true) := by
  decide

/-- C3 amended: only the scalar output descriptor passes `is_output=True`; the
vector, matrix, and dual-evaluation output descriptors do not pass the flag (it
is left unspecified, for loopy to infer), for every element and dtype. -/
theorem C3_output_flags (elem relem celem : FinatElement) (dtype : String)
    (interior_facet : Bool) (n r c : Nat) :
    (ScalarOutputKernelArg.loopy_arg dtype).is_output = some true ∧
    Except.map GlobalArg.is_output
        (VectorOutputKernelArg.loopy_arg elem dtype interior_facet) =
      Except.ok none ∧
    Except.map GlobalArg.is_output
        (MatrixOutputKernelArg.loopy_arg relem celem dtype interior_facet) =
      Except.ok none ∧
    (DualEvalVectorOutputKernelArg.loopy_arg n dtype).is_output = none ∧
    (DualEvalMatrixOutputKernelArg.loopy_arg r c dtype).is_output = none := by
  refine ⟨rfl, ?_, ?_, rfl, rfl⟩ <;>
    simp [VectorOutputKernelArg.loopy_arg, MatrixOutputKernelArg.loopy_arg,
      npProd_int_cons, Bind.bind, Except.bind, Except.map, Pure.pure, Except.pure]

/-- C4: the claimed flat-length invariant `loopy_arg.shape == node_shape *
product(shape)` holds for coordinates, named coefficients, and (under the
scalar-to-tuple normalisation, with the tuple `node_shape = (1,)` read as 1)
the two facet arguments; but the cell-orientations descriptor raises when
built — its `node_shape` is the tuple `(1,)`, so `np.prod` receives a ragged
list — and the cell-sizes descriptor raises `NameError` on the unbound name
`_is_tensor_element`. -/
theorem C4_rank_one_flat_lengths (elem : FinatElement) (nm dtype : String)
    (interior_facet : Bool) :
    CoordinatesKernelArg.loopy_arg elem dtype interior_facet =
      Except.ok ⟨CoordinatesKernelArg.name, dtype,
        [CoordinatesKernelArg.node_shape elem interior_facet *
            (CoordinatesKernelArg.shape elem).prod], none⟩ ∧
    CoefficientKernelArg.loopy_arg nm elem dtype interior_facet =
      Except.ok ⟨nm, dtype,
        [CoefficientKernelArg.node_shape elem interior_facet *
            (CoefficientKernelArg.shape elem).prod], none⟩ ∧
    ExteriorFacetKernelArg.loopy_arg.shape = [1] ∧
    InteriorFacetKernelArg.loopy_arg.shape = [2] ∧
    CellOrientationsKernelArg.loopy_arg interior_facet =
      .error .valueError ∧
    CellSizesKernelArg.loopy_arg elem dtype interior_facet =
      .error .nameError := by
  refine ⟨?_, ?_, rfl, rfl, ?_, rfl⟩
  · simp [CoordinatesKernelArg.loopy_arg, npProd_int_cons]
  · simp [CoefficientKernelArg.loopy_arg, npProd_int_cons]
  · simp [CellOrientationsKernelArg.loopy_arg, npProd, PyVal.isInt]

/-- C5 counterexample: the claim says every rank-one or rank-two argument kind
keeps `shape` identical across the two `interior_facet` variants (doubling
`node_shape` instead); the cell-orientations descriptor changes `shape` from
`(1,)` to `(2,)`. -/
theorem C5_cell_orientations_shape_changes :
    CellOrientationsKernelArg.shape true ≠ CellOrientationsKernelArg.shape false := by
  decide

/-- C5 amended: for the coordinates, named-coefficient, vector-output and
matrix-output arguments, `interior_facet=True` yields `node_shape` (resp.
`rnode_shape`/`cnode_shape`) exactly twice the `interior_facet=False` value,
and `shape` (resp. `rshape`/`cshape`) does not depend on `interior_facet` (the
shape accessors take no such parameter); the cell-orientations argument instead
encodes the doubling in `shape` — `(2,)` versus `(1,)` — with `node_shape` the
constant tuple `(1,)`; the cell-sizes `node_shape` raises `NameError` for
either value; the facet arguments take no `interior_facet` parameter at all. -/
theorem C5_facet_doubling (elem relem celem : FinatElement) :
    CoordinatesKernelArg.node_shape elem true =
      2 * CoordinatesKernelArg.node_shape elem false ∧
    CoefficientKernelArg.node_shape elem true =
      2 * CoefficientKernelArg.node_shape elem false ∧
    VectorOutputKernelArg.node_shape elem true =
      2 * VectorOutputKernelArg.node_shape elem false ∧
    MatrixOutputKernelArg.rnode_shape relem true =
      2 * MatrixOutputKernelArg.rnode_shape relem false ∧
    MatrixOutputKernelArg.cnode_shape celem true =
      2 * MatrixOutputKernelArg.cnode_shape celem false ∧
    CellOrientationsKernelArg.shape true = [2] ∧
    CellOrientationsKernelArg.shape false = [1] ∧
    CellOrientationsKernelArg.node_shape = [1] ∧
    CellSizesKernelArg.node_shape elem true = .error .nameError ∧
    CellSizesKernelArg.node_shape elem false = .error .nameError :=
  ⟨rfl, rfl, rfl, rfl, rfl, rfl, rfl, rfl, rfl, rfl⟩

/-- C6 counterexample: for a tensor element with declared block shape `()` and
index shape `(3,)`, the adapter computes `node_shape = 1` — Python's
`index_shape[:-0]` is the empty slice — while the claimed formula (exclude the
trailing `len(tensor_shape) = 0` dimensions) gives `3`. -/
theorem C6_empty_block_shape_cex :
    ElementHandler.node_shape ⟨[3], true, []⟩ = 1 ∧
    spec_node_shape ⟨[3], true, []⟩ = 3 ∧
    ElementHandler.node_shape ⟨[3], true, []⟩ ≠ spec_node_shape ⟨[3], true, []⟩ := by
  decide

/-- C6 amended: `tensor_shape` is the declared block shape for tensor elements
and `(1,)` otherwise; and provided a tensor element declares a non-empty block
shape, `node_shape` is the integer product of the index-shape dimensions with
the trailing `len(tensor_shape)` dimensions excluded (full product for plain
elements, empty product 1).  A tensor element with an empty declared block
shape instead gets `node_shape = 1`, since Python's `[:-0]` slice excludes
every dimension. -/
theorem C6_element_handler_shapes (e : FinatElement)
    (h : e.is_tensor = true → e.elem_shape ≠ []) :
    ElementHandler.tensor_shape e = (if e.is_tensor then e.elem_shape else [1]) ∧
    ElementHandler.node_shape e = spec_node_shape e := by
  refine ⟨rfl, ?_⟩
  unfold ElementHandler.node_shape spec_node_shape
  by_cases ht : e.is_tensor = true
  · have hk : (ElementHandler.tensor_shape e).length ≠ 0 := by
      simp [ElementHandler.tensor_shape, ElementHandler.is_tensor_element, ht,
        List.length_eq_zero, h ht]
    simp [ElementHandler.is_tensor_element, ht, pyDropLast, hk]
  · simp [ElementHandler.is_tensor_element, ht]

/-- C6 witness: the amended theorem at a tensor element with index shape
`(4, 2)` and block shape `(2,)`, whose node shape is 4 on both readings. -/
theorem C6_element_handler_shapes_witness :
    ElementHandler.tensor_shape ⟨[4, 2], true, [2]⟩ = [2] ∧
    ElementHandler.node_shape ⟨[4, 2], true, [2]⟩ =
      spec_node_shape ⟨[4, 2], true, [2]⟩ := by
  have h := C6_element_handler_shapes ⟨[4, 2], true, [2]⟩ (fun _ => by decide)
  simpa using h

/-- C7: for every element (pair), multiindex list and diagonal flag, the
interior-facet vector output yields exactly 2 expressions ordered side 0 then
side 1, viewing the half-slices `[0, u)` and `[u, 2u)` of the flat buffer (`u`
the product of the element's full index shape); the interior-facet matrix
output yields exactly 4, in lexicographic order (0,0), (0,1), (1,0), (1,1)
over (row side, column side); without interior facets each yields exactly one
expression over the full unrestricted range. -/
theorem C7_restriction_enumeration (elem relem celem : FinatElement)
    (mis : List (List Nat)) (diagonal : Bool) :
    (VectorOutputKernelArg.make_gem_exprs elem true diagonal mis).map viewSlicesOf =
      [[⟨some 0, elem.index_shape.prod⟩],
       [⟨some elem.index_shape.prod, 2 * elem.index_shape.prod⟩]] ∧
    (VectorOutputKernelArg.make_gem_exprs elem false diagonal mis).map viewSlicesOf =
      [[⟨none, elem.index_shape.prod⟩]] ∧
    (MatrixOutputKernelArg.make_gem_exprs relem celem true mis).map viewSlicesOf =
      [[⟨some 0, relem.index_shape.prod⟩, ⟨some 0, celem.index_shape.prod⟩],
       [⟨some 0, relem.index_shape.prod⟩,
        ⟨some celem.index_shape.prod, 2 * celem.index_shape.prod⟩],
       [⟨some relem.index_shape.prod, 2 * relem.index_shape.prod⟩,
        ⟨some 0, celem.index_shape.prod⟩],
       [⟨some relem.index_shape.prod, 2 * relem.index_shape.prod⟩,
        ⟨some celem.index_shape.prod, 2 * celem.index_shape.prod⟩]] ∧
    (MatrixOutputKernelArg.make_gem_exprs relem celem false mis).map viewSlicesOf =
      [[⟨none, relem.index_shape.prod⟩, ⟨none, celem.index_shape.prod⟩]] := by
  refine ⟨?_, ?_, ?_, ?_⟩ <;>
    simp [VectorOutputKernelArg.make_gem_exprs, MatrixOutputKernelArg.make_gem_exprs,
      VectorOutputKernelArg.make_expression, MatrixOutputKernelArg.make_expression,
      prune, viewSlicesOf, Nat.two_mul]

/-- C8: the scalar output's expression builder fails with an assertion error
exactly when the supplied multiindex list is non-empty; called on the empty
list it returns the single expression indexing the buffer variable `A` of
shape `(1,)` at position 0. -/
theorem C8_scalar_output_assertion :
    ScalarOutputKernelArg.make_gem_exprs [] =
      Except.ok [GemExpr.indexed (GemExpr.var "A" [1]) [0]] ∧
    ∀ mis : List (List Nat),
      (ScalarOutputKernelArg.make_gem_exprs mis = Except.error PyErr.assertionError ↔
        mis ≠ []) := by
  constructor
  · rfl
  · intro mis
    rcases mis with _ | ⟨m, ms⟩ <;>
      simp [ScalarOutputKernelArg.make_gem_exprs]

/-- C9: for every element and facet flag, the diagonal vector-output variant
uses only the first supplied multiindex — its result coincides with the call on
the truncated list `multiindices[:1]`, and every returned expression is indexed
by the flattening of that first multiindex alone — whereas the non-diagonal
variant indexes every returned expression with all supplied multiindices
concatenated in order. -/
theorem C9_diagonal_multiindices (elem : FinatElement) (interior_facet : Bool)
    (mis : List (List Nat)) :
    VectorOutputKernelArg.make_gem_exprs elem interior_facet true mis =
      VectorOutputKernelArg.make_gem_exprs elem interior_facet true (mis.take 1) ∧
    (VectorOutputKernelArg.make_gem_exprs elem interior_facet true mis).map
        topMultiindex =
      List.replicate (if interior_facet then 2 else 1)
        (some (mis.take 1).flatten) ∧
    (VectorOutputKernelArg.make_gem_exprs elem interior_facet false mis).map
        topMultiindex =
      List.replicate (if interior_facet then 2 else 1) (some mis.flatten) := by
  refine ⟨?_, ?_, ?_⟩ <;>
    cases interior_facet <;>
      simp [VectorOutputKernelArg.make_gem_exprs,
        VectorOutputKernelArg.make_expression, prune, topMultiindex,
        List.take_take, List.replicate]

/-- C10 counterexample: the tensor element with index shape `(3,)` and declared
block shape `()` satisfies the claim's premise — its trailing 0 index-shape
dimensions equal its (empty) declared block shape — yet the declared flat
length of the vector output is 1 while the buffer variable built by
`make_gem_exprs` has length 3. -/
theorem C10_empty_block_shape_mismatch :
    (FinatElement.mk [3] true []).index_shape =
      [3] ++ (FinatElement.mk [3] true []).elem_shape ∧
    Except.map GlobalArg.shape
        (VectorOutputKernelArg.loopy_arg ⟨[3], true, []⟩ "float64" false) =
      Except.ok [1] ∧
    (VectorOutputKernelArg.make_gem_exprs ⟨[3], true, []⟩ false false []).map
        baseVarShape = [some [3]] ∧
    Except.map GlobalArg.shape
        (VectorOutputKernelArg.loopy_arg ⟨[3], true, []⟩ "float64" false) ≠
      Except.ok [3] := by
  decide

/-- C10 amended: provided a tensor element declares a non-empty block shape
that forms the trailing dimensions of its index shape (plain elements qualify
unconditionally), the vector output's declared flat length — `node_shape *
product(shape)`, with `node_shape` doubled under `interior_facet` — equals the
length of the symbolic buffer variable that `make_gem_exprs` constructs — the
product of the element's full index shape, doubled under `interior_facet` — so
the declared signature and the generated expressions address a buffer of the
same size. -/
theorem C10_vector_flat_length (elem : FinatElement) (dtype : String)
    (interior_facet diagonal : Bool) (mis : List (List Nat))
    (h : elem.is_tensor = true →
      elem.elem_shape ≠ [] ∧ elem.elem_shape.IsSuffix elem.index_shape) :
    Except.map GlobalArg.shape
        (VectorOutputKernelArg.loopy_arg elem dtype interior_facet) =
      Except.ok [if interior_facet then 2 * elem.index_shape.prod
                 else elem.index_shape.prod] ∧
    (VectorOutputKernelArg.make_gem_exprs elem interior_facet diagonal mis).map
        baseVarShape =
      List.replicate (if interior_facet then 2 else 1)
        (some [if interior_facet then 2 * elem.index_shape.prod
               else elem.index_shape.prod]) := by
  have key := ElementHandler.node_shape_mul_tensor_prod elem h
  constructor
  · cases interior_facet <;>
      simp [VectorOutputKernelArg.loopy_arg, npProd_int_cons,
        VectorOutputKernelArg.node_shape, VectorOutputKernelArg.shape,
        Except.map, Bind.bind, Except.bind, Pure.pure, Except.pure,
        key, Nat.mul_assoc]
  · cases interior_facet <;>
      simp [VectorOutputKernelArg.make_gem_exprs,
        VectorOutputKernelArg.make_expression, prune, baseVarShape,
        List.replicate]

/-- C10 witness: the amended theorem at the tensor element with index shape
`(4, 2)` and block shape `(2,)`, interior facets on: the declared flat length
and the constructed buffer length are both 16. -/
theorem C10_vector_flat_length_witness :
    Except.map GlobalArg.shape
        (VectorOutputKernelArg.loopy_arg ⟨[4, 2], true, [2]⟩ "float64" true) =
      Except.ok [16] ∧
    (VectorOutputKernelArg.make_gem_exprs ⟨[4, 2], true, [2]⟩ true false
        [[0, 0]]).map baseVarShape = [some [16], some [16]] := by
  have h := C10_vector_flat_length ⟨[4, 2], true, [2]⟩ "float64" true false
    [[0, 0]] (fun _ => ⟨by decide, [4], rfl⟩)
  simpa using h
